import Mathlib

/-!
Shallow embedding of `eth2deposit/credentials.py` (classes `Credential` and
`CredentialList`): derivation-path construction, withdrawal credentials,
deposit-message validation, deposit signing, the deposit-datum record, and
keystore verification.  The external collaborators (hierarchical key
derivation, BLS signature scheme, SHA256, SSZ hash-tree-roots, keystore
decryption) are out of scope for the repository and are modelled as abstract
function parameters collected in an `Env` record; bytes are `List Nat`.
-/

/-- A byte string, each entry one byte. -/
abbrev Bytes := List Nat

/-- The SSZ `DepositMessage` container: `{pubkey, withdrawal_credentials, amount}`. -/
structure DepositMessage where
  pubkey : Bytes
  withdrawal_credentials : Bytes
  amount : Nat
deriving DecidableEq, Repr

/-- The SSZ `DepositData` container: the message fields plus the signature. -/
structure DepositData where
  pubkey : Bytes
  withdrawal_credentials : Bytes
  amount : Nat
  signature : Bytes
deriving DecidableEq, Repr

/-- The record returned by `Credential.generate_deposit_datum_dict`
(Python returns it as a dict with exactly these keys). -/
structure DepositDatumDict where
  pubkey : Bytes
  withdrawal_credentials : Bytes
  amount : Nat
  signature : Bytes
  deposit_message_root : Bytes
  deposit_data_root : Bytes
  fork_version : Bytes
  deposit_cli_version : String
deriving DecidableEq, Repr

/-- The external collaborators used by `credentials.py`, abstracted:
`mnemonic_and_path_to_key` (hierarchical derivation), BLS `SkToPk` and
`Sign`, `SHA256`, the SSZ helpers `compute_deposit_domain`,
`compute_signing_root` and the two `hash_tree_root`s, the keystore
load-and-decrypt pipeline (file path and password to decrypted bytes),
and the tool-version tag `DEPOSIT_CLI_VERSION` from the settings module. -/
structure Env where
  mnemonic_and_path_to_key : String → String → String → Nat
  SkToPk : Nat → Bytes
  SHA256 : Bytes → Bytes
  Sign : Nat → Bytes → Bytes
  compute_deposit_domain : Bytes → Bytes
  compute_signing_root : DepositMessage → Bytes → Bytes
  deposit_message_hash_tree_root : DepositMessage → Bytes
  deposit_data_hash_tree_root : DepositData → Bytes
  keystore_decrypt : String → String → Bytes
  deposit_cli_version : String

/-- Modelled from the spec: the withdrawal-credentials prefix byte `0x00`
(`BLS_WITHDRAWAL_PREFIX` in `eth2deposit/utils/constants.py`, which is not
part of the provided sources). -/
def BLS_WITHDRAWAL_PREFIX : Bytes := [0]

/-- Modelled from the spec: Gwei-per-ETH scale (`ETH2GWEI` in
`eth2deposit/utils/constants.py`, not part of the provided sources). -/
def ETH2GWEI : Nat := 1000000000

/-- Modelled from the spec: minimum deposit amount in Gwei
(`MIN_DEPOSIT_AMOUNT = 2**0 * ETH2GWEI` in the constants module, not part
of the provided sources). -/
def MIN_DEPOSIT_AMOUNT : Nat := 1 * ETH2GWEI

/-- Modelled from the spec: maximum deposit amount in Gwei; the spec's
reference vector uses `32000000000` Gwei as a succeeding amount
(`MAX_DEPOSIT_AMOUNT = 2**5 * ETH2GWEI` in the constants module, not part
of the provided sources). -/
def MAX_DEPOSIT_AMOUNT : Nat := 32 * ETH2GWEI

/-- The stored fields of a `Credential` after `__init__` has run. -/
structure Credential where
  withdrawal_sk : Nat
  signing_sk : Nat
  signing_key_path : String
  amount : Nat
  fork_version : Bytes
deriving DecidableEq, Repr

/-- The EIP-2334 withdrawal key path built in `Credential.__init__`:
`m/{purpose}/{coin_type}/{account}/0` with `purpose = 12381`,
`coin_type = 3600`, `account = str(index)`. -/
def withdrawal_key_path (index : Nat) : String :=
  "m/" ++ "12381" ++ "/" ++ "3600" ++ "/" ++ toString index ++ "/0"

/-- The signing key path built in `Credential.__init__`:
`{withdrawal_key_path}/0`. -/
def signing_key_path_of (index : Nat) : String :=
  withdrawal_key_path index ++ "/0"

/-- `Credential.__init__`: builds the two EIP-2334 paths and derives the
two secret keys with `mnemonic_and_path_to_key`, then stores the amount
and fork version. -/
def Credential.fromMnemonic (env : Env) (mnemonic mnemonic_password : String)
    (index : Nat) (amount : Nat) (fork_version : Bytes) : Credential :=
  { withdrawal_sk :=
      env.mnemonic_and_path_to_key mnemonic (withdrawal_key_path index) mnemonic_password
    signing_sk :=
      env.mnemonic_and_path_to_key mnemonic (signing_key_path_of index) mnemonic_password
    signing_key_path := signing_key_path_of index
    amount := amount
    fork_version := fork_version }

/-- `Credential.signing_pk` property: `bls.SkToPk(self.signing_sk)`. -/
def Credential.signing_pk (env : Env) (c : Credential) : Bytes :=
  env.SkToPk c.signing_sk

/-- `Credential.withdrawal_pk` property: `bls.SkToPk(self.withdrawal_sk)`. -/
def Credential.withdrawal_pk (env : Env) (c : Credential) : Bytes :=
  env.SkToPk c.withdrawal_sk

/-- `Credential.withdrawal_credentials` property:
`BLS_WITHDRAWAL_PREFIX + SHA256(self.withdrawal_pk)[1:]`. -/
def Credential.withdrawal_credentials (env : Env) (c : Credential) : Bytes :=
  BLS_WITHDRAWAL_PREFIX ++ (env.SHA256 (c.withdrawal_pk env)).drop 1

/-- `Credential.deposit_message` property: raises `ValidationError` unless
`MIN_DEPOSIT_AMOUNT <= self.amount <= MAX_DEPOSIT_AMOUNT`, else returns the
`DepositMessage` with the signing pubkey, derived withdrawal credentials
and the amount. -/
def Credential.deposit_message (env : Env) (c : Credential) :
    Except String DepositMessage :=
  if ¬ (MIN_DEPOSIT_AMOUNT ≤ c.amount ∧ c.amount ≤ MAX_DEPOSIT_AMOUNT) then
    Except.error "ValidationError: deposits are not within the bounds of this cli."
  else
    Except.ok
      { pubkey := c.signing_pk env
        withdrawal_credentials := c.withdrawal_credentials env
        amount := c.amount }

/-- `Credential.generate_signed_deposit(assigned_withdrawal_credentials)`:
computes the deposit domain from `self.fork_version`, builds the deposit
message, substitutes the override into `withdrawal_credentials` when one is
supplied, computes the signing root over that message and domain, signs it
with `self.signing_sk`, and returns the `DepositData` made of the message
fields plus the signature. -/
def Credential.generate_signed_deposit (env : Env) (c : Credential)
    (assigned_withdrawal_credentials : Option Bytes) :
    Except String DepositData := do
  let domain := env.compute_deposit_domain c.fork_version
  let deposit_message ← c.deposit_message env
  let deposit_message :=
    match assigned_withdrawal_credentials with
    | some wc => { deposit_message with withdrawal_credentials := wc }
    | none => deposit_message
  let signing_root := env.compute_signing_root deposit_message domain
  Except.ok
    { pubkey := deposit_message.pubkey
      withdrawal_credentials := deposit_message.withdrawal_credentials
      amount := deposit_message.amount
      signature := env.Sign c.signing_sk signing_root }

/-- `Credential.generate_deposit_datum_dict(assigned_withdrawal_credentials)`:
calls `generate_signed_deposit`, then extends its dict with
`deposit_message_root = self.deposit_message.hash_tree_root` (note: the
property `self.deposit_message`, recomputed without the override),
`deposit_data_root = signed_deposit_datum.hash_tree_root`,
`fork_version = self.fork_version` and `deposit_cli_version`. -/
def Credential.generate_deposit_datum_dict (env : Env) (c : Credential)
    (assigned_withdrawal_credentials : Option Bytes) :
    Except String DepositDatumDict := do
  let signed_deposit_datum ← c.generate_signed_deposit env assigned_withdrawal_credentials
  let own_deposit_message ← c.deposit_message env
  Except.ok
    { pubkey := signed_deposit_datum.pubkey
      withdrawal_credentials := signed_deposit_datum.withdrawal_credentials
      amount := signed_deposit_datum.amount
      signature := signed_deposit_datum.signature
      deposit_message_root := env.deposit_message_hash_tree_root own_deposit_message
      deposit_data_root := env.deposit_data_hash_tree_root signed_deposit_datum
      fork_version := c.fork_version
      deposit_cli_version := env.deposit_cli_version }

/-- Python's `int.from_bytes(bs, 'big')`. -/
def bytesToNatBE (bs : Bytes) : Nat :=
  bs.foldl (fun acc b => acc * 256 + b) 0

/-- `Credential.verify_keystore(keystore_filefolder, password)`: loads and
decrypts the keystore (modelled by `env.keystore_decrypt`) and compares
`self.signing_sk == int.from_bytes(secret_bytes, 'big')`. -/
def Credential.verify_keystore (env : Env) (c : Credential)
    (keystore_filefolder : String) (password : String) : Bool :=
  c.signing_sk == bytesToNatBE (env.keystore_decrypt keystore_filefolder password)

/-- `CredentialList.from_mnemonic`: raises `ValueError` when
`len(amounts) != num_keys`; otherwise builds one `Credential` per index in
`range(start_index, start_index + num_keys)` with amount
`amounts[index - start_index]`.  The progress bar is observation only. -/
def CredentialList.from_mnemonic (env : Env) (mnemonic mnemonic_password : String)
    (num_keys : Nat) (amounts : List Nat) (fork_version : Bytes)
    (start_index : Nat) : Except String (List Credential) :=
  if amounts.length ≠ num_keys then
    Except.error "The number of keys doesn't equal to the corresponding deposit amounts."
  else
    Except.ok ((List.range' start_index num_keys).map (fun index =>
      Credential.fromMnemonic env mnemonic mnemonic_password index
        (amounts.getD (index - start_index) 0) fork_version))

/-- `CredentialList.verify_keystores(keystore_filefolders, password)`:
zips the credentials with the file list (Python `zip` truncates to the
shorter list) and returns `all` of `verify_keystore` over the pairs. -/
def CredentialList.verify_keystores (env : Env) (credentials : List Credential)
    (keystore_filefolders : List String) (password : String) : Bool :=
  (credentials.zip keystore_filefolders).all
    (fun p => p.1.verify_keystore env p.2 password)

/-- A concrete environment used to evaluate the definitions at concrete
inputs: every collaborator is instantiated with a simple computable
function of the right shape. -/
def defaultEnv : Env :=
  { mnemonic_and_path_to_key := fun mnemonic path password =>
      mnemonic.length + 1000 * path.length + 1000000 * password.length
    SkToPk := fun sk => List.replicate 47 0 ++ [sk % 256]
    SHA256 := fun bs => List.range 31 ++ [bs.length % 256]
    Sign := fun sk msg => List.replicate 94 0 ++ [sk % 256, msg.length % 256]
    compute_deposit_domain := fun fork_version => fork_version ++ [3, 0, 0, 0]
    compute_signing_root := fun dm domain =>
      dm.pubkey ++ dm.withdrawal_credentials ++ [dm.amount % 256] ++ domain
    deposit_message_hash_tree_root := fun dm =>
      dm.withdrawal_credentials ++ [dm.amount % 256]
    deposit_data_hash_tree_root := fun dd =>
      dd.withdrawal_credentials ++ dd.signature
    keystore_decrypt := fun filefolder password =>
      [filefolder.length % 256, password.length % 256]
    deposit_cli_version := "1.0.0" }

/-! ## Theorems -/

/-- C4: For every `Credential`, `withdrawal_credentials` is exactly 32 bytes
whose first byte is the withdrawal prefix `0x00` and whose remaining 31
bytes equal bytes 1 through 31 of `SHA256(withdrawal_pk)`, where
`withdrawal_pk = SkToPk(withdrawal_sk)` (assuming the SHA256 collaborator
returns 32 bytes). -/
theorem withdrawal_credentials_spec (env : Env) (c : Credential)
    (h : (env.SHA256 (c.withdrawal_pk env)).length = 32) :
    c.withdrawal_pk env = env.SkToPk c.withdrawal_sk ∧
    (c.withdrawal_credentials env).length = 32 ∧
    (c.withdrawal_credentials env).take 1 = [0] ∧
    (c.withdrawal_credentials env).drop 1 =
      (env.SHA256 (c.withdrawal_pk env)).drop 1 := by
  refine ⟨rfl, ?_, ?_, ?_⟩
  · simp [Credential.withdrawal_credentials, BLS_WITHDRAWAL_PREFIX, h]
  · simp [Credential.withdrawal_credentials, BLS_WITHDRAWAL_PREFIX]
  · simp [Credential.withdrawal_credentials, BLS_WITHDRAWAL_PREFIX]

/-- Witness for C4 at a concrete credential in `defaultEnv`. -/
theorem withdrawal_credentials_spec_witness :
    ((defaultEnv.SHA256 ((Credential.mk 5 7 "p" MIN_DEPOSIT_AMOUNT [0,0,0,0]).withdrawal_pk defaultEnv)).length = 32) ∧
    ((Credential.mk 5 7 "p" MIN_DEPOSIT_AMOUNT [0,0,0,0]).withdrawal_credentials defaultEnv).length = 32 :=
  ⟨by decide,
   (withdrawal_credentials_spec defaultEnv
     (Credential.mk 5 7 "p" MIN_DEPOSIT_AMOUNT [0,0,0,0]) (by decide)).2.1⟩

/-- C3: `deposit_message` raises a validation error if and only if `amount`
lies outside `[MIN_DEPOSIT_AMOUNT, MAX_DEPOSIT_AMOUNT]`; for an in-bounds
amount it returns the `DepositMessage` with the credential's `signing_pk`,
derived `withdrawal_credentials`, and `amount` (so in particular
`MIN_DEPOSIT_AMOUNT - 1` and `MAX_DEPOSIT_AMOUNT + 1` fail while
`MIN_DEPOSIT_AMOUNT` and `MAX_DEPOSIT_AMOUNT` succeed). -/
theorem deposit_message_bounds (env : Env) (c : Credential) :
    ((∃ e, c.deposit_message env = Except.error e) ↔
      (c.amount < MIN_DEPOSIT_AMOUNT ∨ MAX_DEPOSIT_AMOUNT < c.amount)) ∧
    (MIN_DEPOSIT_AMOUNT ≤ c.amount → c.amount ≤ MAX_DEPOSIT_AMOUNT →
      c.deposit_message env = Except.ok
        { pubkey := c.signing_pk env
          withdrawal_credentials := c.withdrawal_credentials env
          amount := c.amount }) := by
  by_cases hP : MIN_DEPOSIT_AMOUNT ≤ c.amount ∧ c.amount ≤ MAX_DEPOSIT_AMOUNT
  · refine ⟨⟨fun ⟨e, he⟩ => ?_, fun h => ?_⟩, fun h1 h2 => ?_⟩
    · simp [Credential.deposit_message, hP] at he
    · rcases h with h | h
      · exact absurd hP.1 (Nat.not_le.mpr h)
      · exact absurd hP.2 (Nat.not_le.mpr h)
    · simp [Credential.deposit_message, hP]
  · refine ⟨⟨fun _ => ?_, fun _ => ?_⟩, fun h1 h2 => absurd ⟨h1, h2⟩ hP⟩
    · rcases Nat.lt_or_ge c.amount MIN_DEPOSIT_AMOUNT with h | h
      · exact Or.inl h
      · refine Or.inr ?_
        by_contra hmax
        exact hP ⟨h, Nat.not_lt.mp hmax⟩
    · exact ⟨"ValidationError: deposits are not within the bounds of this cli.",
        by simp [Credential.deposit_message, hP]⟩

/-- Witness for C3: the boundary amounts behave as claimed in `defaultEnv`. -/
theorem deposit_message_bounds_witness :
    ((∃ e, (Credential.mk 1 2 "p" (MIN_DEPOSIT_AMOUNT - 1) []).deposit_message defaultEnv
        = Except.error e) ↔
      ((MIN_DEPOSIT_AMOUNT - 1 : Nat) < MIN_DEPOSIT_AMOUNT ∨
        MAX_DEPOSIT_AMOUNT < (MIN_DEPOSIT_AMOUNT - 1 : Nat))) ∧
    (MIN_DEPOSIT_AMOUNT ≤ MAX_DEPOSIT_AMOUNT → MAX_DEPOSIT_AMOUNT ≤ MAX_DEPOSIT_AMOUNT →
      (Credential.mk 1 2 "p" MAX_DEPOSIT_AMOUNT []).deposit_message defaultEnv = Except.ok
        { pubkey := (Credential.mk 1 2 "p" MAX_DEPOSIT_AMOUNT []).signing_pk defaultEnv
          withdrawal_credentials :=
            (Credential.mk 1 2 "p" MAX_DEPOSIT_AMOUNT []).withdrawal_credentials defaultEnv
          amount := MAX_DEPOSIT_AMOUNT }) :=
  ⟨(deposit_message_bounds defaultEnv (Credential.mk 1 2 "p" (MIN_DEPOSIT_AMOUNT - 1) [])).1,
   (deposit_message_bounds defaultEnv (Credential.mk 1 2 "p" MAX_DEPOSIT_AMOUNT [])).2⟩

/-- C2: `generate_signed_deposit(override)` computes the domain from the
credential's current `fork_version`, substitutes the override into the
deposit message's `withdrawal_credentials` field when supplied (keeping the
derived credentials otherwise), computes the signing root over that message
and domain, signs that root with `signing_sk`, and returns the
`DepositData` carrying exactly the message's fields plus that signature;
the result is a pure function of the credential's stored fields and the
arguments, so nothing is cached from construction time. -/
theorem generate_signed_deposit_spec (env : Env) (c : Credential)
    (override : Option Bytes) (dm : DepositMessage)
    (h : c.deposit_message env = Except.ok dm) :
    c.generate_signed_deposit env override = Except.ok
      { pubkey := dm.pubkey
        withdrawal_credentials := override.getD dm.withdrawal_credentials
        amount := dm.amount
        signature := env.Sign c.signing_sk
          (env.compute_signing_root
            { dm with withdrawal_credentials := override.getD dm.withdrawal_credentials }
            (env.compute_deposit_domain c.fork_version)) } := by
  cases override <;> (unfold Credential.generate_signed_deposit; rw [h]) <;> rfl

/-- A concrete credential used in witnesses. -/
def wCred : Credential := ⟨1, 2, "p", MIN_DEPOSIT_AMOUNT, [0, 0, 0, 32]⟩

/-- The deposit message `wCred` produces in `defaultEnv`. -/
def wMsg : DepositMessage :=
  { pubkey := defaultEnv.SkToPk 2
    withdrawal_credentials := wCred.withdrawal_credentials defaultEnv
    amount := MIN_DEPOSIT_AMOUNT }

/-- Witness for C2 at `wCred` with override `[9, 9]` in `defaultEnv`. -/
theorem generate_signed_deposit_spec_witness :
    wCred.deposit_message defaultEnv = Except.ok wMsg ∧
    wCred.generate_signed_deposit defaultEnv (some [9, 9]) = Except.ok
      { pubkey := wMsg.pubkey
        withdrawal_credentials := (some [9, 9]).getD wMsg.withdrawal_credentials
        amount := wMsg.amount
        signature := defaultEnv.Sign wCred.signing_sk
          (defaultEnv.compute_signing_root
            { wMsg with withdrawal_credentials := (some [9, 9]).getD wMsg.withdrawal_credentials }
            (defaultEnv.compute_deposit_domain wCred.fork_version)) } :=
  ⟨by rfl, generate_signed_deposit_spec defaultEnv wCred (some [9, 9]) wMsg (by rfl)⟩

/-- The override bytes used in the C1 counterexample. -/
def cexOverride : Bytes := List.replicate 32 7

/-- The `DepositData` actually returned by `generate_signed_deposit` at the
counterexample input. -/
def cexSigned : DepositData :=
  (wCred.generate_signed_deposit defaultEnv (some cexOverride)).toOption.getD
    ⟨[], [], 0, []⟩

/-- The record actually returned by `generate_deposit_datum_dict` at the
counterexample input. -/
def cexDatum : DepositDatumDict :=
  (wCred.generate_deposit_datum_dict defaultEnv (some cexOverride)).toOption.getD
    ⟨[], [], 0, [], [], [], [], ""⟩

/-- C1 counterexample: with an override supplied, the deposit message
actually signed carries the override as its `withdrawal_credentials`, yet
the returned record's `deposit_message_root` is NOT the `hash_tree_root` of
that signed message — it is computed from the non-overridden
`deposit_message` property instead. -/
theorem datum_dict_message_root_cex :
    wCred.generate_signed_deposit defaultEnv (some cexOverride) = Except.ok cexSigned ∧
    cexSigned.withdrawal_credentials = cexOverride ∧
    wCred.generate_deposit_datum_dict defaultEnv (some cexOverride) = Except.ok cexDatum ∧
    cexDatum.deposit_message_root ≠
      defaultEnv.deposit_message_hash_tree_root
        { pubkey := cexSigned.pubkey
          withdrawal_credentials := cexSigned.withdrawal_credentials
          amount := cexSigned.amount } :=
  ⟨by rfl, by decide, by rfl, by decide⟩

/-- C1 (amended): `generate_deposit_datum_dict(override)` returns the record
of `generate_signed_deposit(override)` extended with `deposit_message_root`
equal to the `hash_tree_root` of the credential's own (non-overridden)
`deposit_message` — which coincides with the signed message only when no
override is supplied — `deposit_data_root` equal to the `hash_tree_root` of
the resulting `DepositData`, the credential's `fork_version`, and the
tool-version tag; both roots are recomputed fresh from the current state on
each call (the functions are pure), never reused from a previous call. -/
theorem generate_deposit_datum_dict_spec (env : Env) (c : Credential)
    (override : Option Bytes) (dm : DepositMessage) (sd : DepositData)
    (hm : c.deposit_message env = Except.ok dm)
    (hs : c.generate_signed_deposit env override = Except.ok sd) :
    c.generate_deposit_datum_dict env override = Except.ok
      { pubkey := sd.pubkey
        withdrawal_credentials := sd.withdrawal_credentials
        amount := sd.amount
        signature := sd.signature
        deposit_message_root := env.deposit_message_hash_tree_root dm
        deposit_data_root := env.deposit_data_hash_tree_root sd
        fork_version := c.fork_version
        deposit_cli_version := env.deposit_cli_version } := by
  unfold Credential.generate_deposit_datum_dict
  rw [hs, hm]
  rfl

/-- Witness for C1's amended theorem at `wCred` with the concrete override. -/
theorem generate_deposit_datum_dict_spec_witness :
    wCred.deposit_message defaultEnv = Except.ok wMsg ∧
    wCred.generate_signed_deposit defaultEnv (some cexOverride) = Except.ok cexSigned ∧
    wCred.generate_deposit_datum_dict defaultEnv (some cexOverride) = Except.ok
      { pubkey := cexSigned.pubkey
        withdrawal_credentials := cexSigned.withdrawal_credentials
        amount := cexSigned.amount
        signature := cexSigned.signature
        deposit_message_root := defaultEnv.deposit_message_hash_tree_root wMsg
        deposit_data_root := defaultEnv.deposit_data_hash_tree_root cexSigned
        fork_version := wCred.fork_version
        deposit_cli_version := defaultEnv.deposit_cli_version } :=
  ⟨by rfl, by rfl,
   generate_deposit_datum_dict_spec defaultEnv wCred (some cexOverride) wMsg cexSigned
     (by rfl) (by rfl)⟩

/-- C8: the two derivation paths built by `Credential.__init__` are exactly
`withdrawal_path = m/12381/3600/{index}/0` (EIP-2334 with purpose 12381 and
coin type 3600) and `signing_path = withdrawal_path/0`; the two paths are
always distinct, and `withdrawal_sk` and `signing_sk` are derived from
these two distinct paths respectively. -/
theorem derivation_paths_spec (env : Env) (mnemonic mnemonic_password : String)
    (index amount : Nat) (fork_version : Bytes) :
    withdrawal_key_path index = "m/12381/3600/" ++ toString index ++ "/0" ∧
    signing_key_path_of index = withdrawal_key_path index ++ "/0" ∧
    withdrawal_key_path index ≠ signing_key_path_of index ∧
    (Credential.fromMnemonic env mnemonic mnemonic_password index amount
      fork_version).signing_key_path = signing_key_path_of index ∧
    (Credential.fromMnemonic env mnemonic mnemonic_password index amount
      fork_version).withdrawal_sk =
      env.mnemonic_and_path_to_key mnemonic (withdrawal_key_path index) mnemonic_password ∧
    (Credential.fromMnemonic env mnemonic mnemonic_password index amount
      fork_version).signing_sk =
      env.mnemonic_and_path_to_key mnemonic (signing_key_path_of index) mnemonic_password := by
  refine ⟨rfl, rfl, ?_, rfl, rfl, rfl⟩
  intro h
  have hlen := congrArg String.length h
  rw [signing_key_path_of, String.length_append] at hlen
  have h2 : ("/0" : String).length = 2 := rfl
  rw [h2] at hlen
  omega

/-- C9: every operation of a `Credential` is a side-effect-free projection
of the five stored fields `{withdrawal_sk, signing_sk, signing_key_path,
amount, fork_version}`: two credentials agreeing on those fields give the
same result for every operation and argument (and, the embedding being
pure, no call mutates the stored fields). -/
theorem credential_pure_projections (env : Env) (c1 c2 : Credential)
    (h1 : c1.withdrawal_sk = c2.withdrawal_sk) (h2 : c1.signing_sk = c2.signing_sk)
    (h3 : c1.signing_key_path = c2.signing_key_path) (h4 : c1.amount = c2.amount)
    (h5 : c1.fork_version = c2.fork_version) :
    c1.signing_pk env = c2.signing_pk env ∧
    c1.withdrawal_pk env = c2.withdrawal_pk env ∧
    c1.withdrawal_credentials env = c2.withdrawal_credentials env ∧
    c1.deposit_message env = c2.deposit_message env ∧
    (∀ o, c1.generate_signed_deposit env o = c2.generate_signed_deposit env o) ∧
    (∀ o, c1.generate_deposit_datum_dict env o = c2.generate_deposit_datum_dict env o) := by
  obtain ⟨w1, s1, p1, a1, f1⟩ := c1
  obtain ⟨w2, s2, p2, a2, f2⟩ := c2
  simp only at h1 h2 h3 h4 h5
  subst h1; subst h2; subst h3; subst h4; subst h5
  exact ⟨rfl, rfl, rfl, rfl, fun _ => rfl, fun _ => rfl⟩

/-- Witness for C9: the projections agree on two identical credentials. -/
theorem credential_pure_projections_witness :
    wCred.withdrawal_sk = wCred.withdrawal_sk ∧
    (wCred.signing_pk defaultEnv = wCred.signing_pk defaultEnv ∧
     wCred.withdrawal_pk defaultEnv = wCred.withdrawal_pk defaultEnv ∧
     wCred.withdrawal_credentials defaultEnv = wCred.withdrawal_credentials defaultEnv ∧
     wCred.deposit_message defaultEnv = wCred.deposit_message defaultEnv ∧
     (∀ o, wCred.generate_signed_deposit defaultEnv o =
        wCred.generate_signed_deposit defaultEnv o) ∧
     (∀ o, wCred.generate_deposit_datum_dict defaultEnv o =
        wCred.generate_deposit_datum_dict defaultEnv o)) :=
  ⟨rfl, credential_pure_projections defaultEnv wCred wCred rfl rfl rfl rfl rfl⟩

/-- C5: when `len(amounts) != num_keys`, `CredentialList.from_mnemonic`
fails with the length-mismatch error before any key derivation is
attempted: the result is the same fixed error for every environment (so no
`mnemonic_and_path_to_key` call can have influenced it), no `Credential` is
constructed and no partial list is produced. -/
theorem from_mnemonic_fail_fast (env env' : Env) (mnemonic mnemonic_password : String)
    (num_keys : Nat) (amounts : List Nat) (fork_version : Bytes) (start_index : Nat)
    (h : amounts.length ≠ num_keys) :
    CredentialList.from_mnemonic env mnemonic mnemonic_password num_keys amounts
      fork_version start_index =
      Except.error "The number of keys doesn't equal to the corresponding deposit amounts." ∧
    CredentialList.from_mnemonic env mnemonic mnemonic_password num_keys amounts
      fork_version start_index =
      CredentialList.from_mnemonic env' mnemonic mnemonic_password num_keys amounts
        fork_version start_index := by
  constructor <;> simp [CredentialList.from_mnemonic, h]

/-- Witness for C5 with two amounts but `num_keys = 3`. -/
theorem from_mnemonic_fail_fast_witness :
    ([10, 20] : List Nat).length ≠ 3 ∧
    (CredentialList.from_mnemonic defaultEnv "m" "" 3 [10, 20] [0, 0, 0, 0] 0 =
      Except.error "The number of keys doesn't equal to the corresponding deposit amounts." ∧
    CredentialList.from_mnemonic defaultEnv "m" "" 3 [10, 20] [0, 0, 0, 0] 0 =
      CredentialList.from_mnemonic defaultEnv "m" "" 3 [10, 20] [0, 0, 0, 0] 0) :=
  ⟨by decide,
   from_mnemonic_fail_fast defaultEnv defaultEnv "m" "" 3 [10, 20] [0, 0, 0, 0] 0 (by decide)⟩

/-- C6: with `len(amounts) == num_keys`, `from_mnemonic` succeeds and
produces exactly `num_keys` credentials, the one at position `j` being
constructed for index `start_index + j` (so indices run over
`start_index .. start_index + num_keys - 1` in strictly ascending order)
with amount `amounts[j]` and the shared mnemonic, password and
fork version; the construction is a pure function of those inputs, so the
same inputs always reproduce identical key material. -/
theorem from_mnemonic_spec (env : Env) (mnemonic mnemonic_password : String)
    (num_keys : Nat) (amounts : List Nat) (fork_version : Bytes) (start_index : Nat)
    (h : amounts.length = num_keys) :
    CredentialList.from_mnemonic env mnemonic mnemonic_password num_keys amounts
      fork_version start_index =
      Except.ok ((List.range num_keys).map (fun j =>
        Credential.fromMnemonic env mnemonic mnemonic_password (start_index + j)
          (amounts.getD j 0) fork_version)) ∧
    (∀ creds, CredentialList.from_mnemonic env mnemonic mnemonic_password num_keys
        amounts fork_version start_index = Except.ok creds →
      creds.length = num_keys) := by
  have key : CredentialList.from_mnemonic env mnemonic mnemonic_password num_keys amounts
      fork_version start_index =
      Except.ok ((List.range num_keys).map (fun j =>
        Credential.fromMnemonic env mnemonic mnemonic_password (start_index + j)
          (amounts.getD j 0) fork_version)) := by
    simp only [CredentialList.from_mnemonic, h, ne_eq, not_true_eq_false, if_false]
    rw [List.range'_eq_map_range, List.map_map]
    refine congrArg Except.ok (List.map_congr_left ?_)
    intro j hj
    simp [Function.comp, Nat.add_sub_cancel_left]
  refine ⟨key, fun creds hc => ?_⟩
  rw [key] at hc
  injection hc with hc
  subst hc
  simp

/-- Witness for C6 with two keys starting at index 5. -/
theorem from_mnemonic_spec_witness :
    ([MIN_DEPOSIT_AMOUNT, MAX_DEPOSIT_AMOUNT] : List Nat).length = 2 ∧
    (CredentialList.from_mnemonic defaultEnv "m" "" 2
        [MIN_DEPOSIT_AMOUNT, MAX_DEPOSIT_AMOUNT] [0, 0, 0, 0] 5 =
      Except.ok ((List.range 2).map (fun j =>
        Credential.fromMnemonic defaultEnv "m" "" (5 + j)
          (([MIN_DEPOSIT_AMOUNT, MAX_DEPOSIT_AMOUNT] : List Nat).getD j 0) [0, 0, 0, 0])) ∧
    (∀ creds, CredentialList.from_mnemonic defaultEnv "m" "" 2
        [MIN_DEPOSIT_AMOUNT, MAX_DEPOSIT_AMOUNT] [0, 0, 0, 0] 5 = Except.ok creds →
      creds.length = 2)) :=
  ⟨by decide,
   from_mnemonic_spec defaultEnv "m" "" 2 [MIN_DEPOSIT_AMOUNT, MAX_DEPOSIT_AMOUNT]
     [0, 0, 0, 0] 5 (by decide)⟩

/-- C7: `verify_keystore` returns `true` exactly when the decrypted bytes,
read as a big-endian integer, equal the credential's `signing_sk` (so a
decryption that does not reproduce the key — e.g. under a wrong password —
never yields `true`), and `verify_keystores` pairs credentials with files
by position and returns the logical AND of `verify_keystore` over those
pairs under the one shared password. -/
theorem verify_keystores_spec (env : Env) (credentials : List Credential)
    (keystore_filefolders : List String) (password : String) :
    (∀ c file, Credential.verify_keystore env c file password = true ↔
      c.signing_sk = bytesToNatBE (env.keystore_decrypt file password)) ∧
    (∀ c : Credential, ∀ file,
      bytesToNatBE (env.keystore_decrypt file password) ≠ c.signing_sk →
      Credential.verify_keystore env c file password = false) ∧
    (CredentialList.verify_keystores env credentials keystore_filefolders password = true ↔
      ∀ p ∈ credentials.zip keystore_filefolders,
        Credential.verify_keystore env p.1 p.2 password = true) := by
  refine ⟨fun c file => ?_, fun c file hne => ?_, ?_⟩
  · simp [Credential.verify_keystore]
  · simp only [Credential.verify_keystore, beq_eq_false_iff_ne, ne_eq]
    exact fun hh => hne hh.symm
  · simp [CredentialList.verify_keystores, List.all_eq_true]

/-- Witness for C7 at a singleton batch in `defaultEnv`. -/
theorem verify_keystores_spec_witness :
    (∀ c file, Credential.verify_keystore defaultEnv c file "pw" = true ↔
      c.signing_sk = bytesToNatBE (defaultEnv.keystore_decrypt file "pw")) ∧
    (∀ c : Credential, ∀ file,
      bytesToNatBE (defaultEnv.keystore_decrypt file "pw") ≠ c.signing_sk →
      Credential.verify_keystore defaultEnv c file "pw" = false) ∧
    (CredentialList.verify_keystores defaultEnv [wCred] ["f"] "pw" = true ↔
      ∀ p ∈ ([wCred] : List Credential).zip (["f"] : List String),
        Credential.verify_keystore defaultEnv p.1 p.2 "pw" = true) :=
  verify_keystores_spec defaultEnv [wCred] ["f"] "pw"

/-- Python's `zip` truncates to the shorter list. -/
theorem list_zip_truncate {α β : Type} (l1 : List α) :
    ∀ l2 : List β, l1.zip l2 = (l1.take l2.length).zip (l2.take l1.length) := by
  induction l1 with
  | nil => intro l2; simp
  | cons a l1 ih =>
    intro l2
    cases l2 with
    | nil => simp
    | cons b l2 => simp [ih l2]

/-- C10: `verify_keystores` silently drops the unpaired tail of either
list: the result is the AND over only the first
`min(len(credentials), len(keystore_filefolders))` positional pairs, so
with fewer files than credentials the trailing credentials are skipped (and
the batch can report `true` without every credential having been verified),
and extra trailing files beyond the credential count are likewise ignored. -/
theorem verify_keystores_truncation (env : Env) (credentials : List Credential)
    (keystore_filefolders : List String) (password : String) :
    CredentialList.verify_keystores env credentials keystore_filefolders password =
      CredentialList.verify_keystores env (credentials.take keystore_filefolders.length)
        (keystore_filefolders.take credentials.length) password ∧
    (keystore_filefolders.length < credentials.length →
      CredentialList.verify_keystores env credentials keystore_filefolders password =
        ((credentials.take keystore_filefolders.length).zip keystore_filefolders).all
          (fun p => p.1.verify_keystore env p.2 password)) := by
  constructor
  · unfold CredentialList.verify_keystores
    rw [← list_zip_truncate]
  · intro hlt
    unfold CredentialList.verify_keystores
    rw [list_zip_truncate credentials keystore_filefolders,
      List.take_of_length_le (Nat.le_of_lt hlt)]

/-- Witness for C10: two credentials, one file; the second credential is
never verified and the batch still reports `true`. -/
theorem verify_keystores_truncation_witness :
    (["f"] : List String).length < ([⟨0, 256, "q", 0, []⟩, wCred] : List Credential).length ∧
    CredentialList.verify_keystores defaultEnv [⟨0, 256, "q", 0, []⟩, wCred] ["f"] "" =
      ((([⟨0, 256, "q", 0, []⟩, wCred] : List Credential).take
          (["f"] : List String).length).zip (["f"] : List String)).all
        (fun p => p.1.verify_keystore defaultEnv p.2 "") ∧
    CredentialList.verify_keystores defaultEnv [⟨0, 256, "q", 0, []⟩, wCred] ["f"] "" = true :=
  ⟨by decide,
   (verify_keystores_truncation defaultEnv [⟨0, 256, "q", 0, []⟩, wCred] ["f"] "").2
     (by decide),
   by decide⟩
